import Mathlib

/-!
Shallow embedding of the omnical multi-calendar library: the JDN date
kernel (src/date.rs), the astronomy enums (src/astronomy.rs), the
proleptic Gregorian conversion (src/gregorian.rs) and the Chinese
lunisolar year builder and calendar surface (src/chinese.rs).

Machine integers are modelled as Nat / Int with explicit reduction
modulo 2^32 (u32) or clamping where the source saturates; where the
source relies on unchecked overflow the release-mode two's-complement
wrapping behaviour is modelled (debug builds would panic at the same
inputs).  The f64 degree and Julian-Date arithmetic is modelled over
the rationals; every concrete constant the theorems touch is either
exactly representable in f64 or (for the decimal constant 30.6001)
enters only through floors whose arguments stay many orders of
magnitude away from integers, so the rational model agrees with the
f64 computation at every input used below.
-/

set_option maxRecDepth 100000
set_option linter.unreachableTactic false
set_option linter.unusedTactic false

namespace Omnical

/-- Cast of a `u32` value (modelled as `Nat`) to `i32`, as in Rust `as i32`. -/
def u32_to_i32 (n : Nat) : Int :=
  if n < 2147483648 then (n : Int) else (n : Int) - 4294967296

/-- Two's-complement wrap of an `Int` into the `i32` range (release-mode
overflow semantics of Rust `i32` arithmetic). -/
def i32_wrap (x : Int) : Int :=
  (x + 2147483648) % 4294967296 - 2147483648

/-- Rust `u32::saturating_add_signed`: add an `i32` to a `u32`, clamping the
result into `[0, 2^32 - 1]`. -/
def u32_saturating_add_signed (n : Nat) (k : Int) : Nat :=
  (max (min ((n : Int) + k) 4294967295) 0).toNat

/-- Truncation of a `u8` out of an `Int`, as in Rust `as u8` (release mode). -/
def u8_cast (x : Int) : Nat := (x % 256).toNat

/-- Rust `as usize` cast of a (possibly negative) machine integer:
two's-complement wrap into the 64-bit range. -/
def usize_cast (i : Int) : Nat := (i % 18446744073709551616).toNat

/-- The 7 days of the week (src/date.rs `Weekday`), ordered Monday first. -/
inductive Weekday where
  | Monday | Tuesday | Wednesday | Thursday | Friday | Saturday | Sunday
deriving DecidableEq, Fintype

/-- Enum discriminant of `Weekday` (`*self as u8` in the source). -/
def Weekday.toRepr : Weekday → Nat
  | .Monday => 0 | .Tuesday => 1 | .Wednesday => 2 | .Thursday => 3
  | .Friday => 4 | .Saturday => 5 | .Sunday => 6

/-- strum `Weekday::from_repr`. -/
def Weekday.from_repr : Nat → Option Weekday
  | 0 => some .Monday | 1 => some .Tuesday | 2 => some .Wednesday
  | 3 => some .Thursday | 4 => some .Friday | 5 => some .Saturday
  | 6 => some .Sunday | _ => none

/-- `Weekday::succ`: `from_repr((self as isize + 1).rem_euclid(7))`.  The
source unwraps the option (via `ignore_none`); the option is kept here and
its successfulness is proved. -/
def Weekday.succ (w : Weekday) : Option Weekday :=
  Weekday.from_repr (((w.toRepr : Int) + 1) % 7).toNat

/-- `Weekday::pred`: `from_repr((self as isize - 1).rem_euclid(7))`. -/
def Weekday.pred (w : Weekday) : Option Weekday :=
  Weekday.from_repr (((w.toRepr : Int) - 1) % 7).toNat

/-- src/date.rs `Date`: a civil day represented by its Julian day number,
stored as a `u32` (modelled as a `Nat` that the operations keep below 2^32). -/
structure Date where
  jdn : Nat
deriving DecidableEq

/-- `Date::from_jdn` (the `u32` argument is reduced mod 2^32). -/
def Date.from_jdn (n : Nat) : Date := ⟨n % 4294967296⟩

/-- `Date::succ`: `jdn + 1` on a `u32`, i.e. wrapping at 2^32 (release mode;
a debug build panics at `u32::MAX`). -/
def Date.succ (d : Date) : Date := ⟨(d.jdn + 1) % 4294967296⟩

/-- `Date::pred`: `jdn - 1` on a `u32`, i.e. wrapping at 0 (release mode;
a debug build panics at 0). -/
def Date.pred (d : Date) : Date := ⟨(d.jdn + 4294967295) % 4294967296⟩

/-- `Date + i32` through `AddAssign`: `self.jdn.saturating_add_signed(rhs)`. -/
def Date.add (d : Date) (k : Int) : Date := ⟨u32_saturating_add_signed d.jdn k⟩

/-- `Date - Date`: `self.jdn as i32 - rhs.jdn as i32` (i32 arithmetic). -/
def Date.sub (d1 d2 : Date) : Int := i32_wrap (u32_to_i32 d1.jdn - u32_to_i32 d2.jdn)

/-- `Date::weekday`: `Weekday::from_repr(jdn.rem_euclid(7)).unwrap()`,
with the unwrap modelled by the option. -/
def Date.weekday (d : Date) : Option Weekday := Weekday.from_repr (d.jdn % 7)

/-- `Date::from_jd`: `(jd + 0.5).floor() as u32` (the float-to-int cast
saturates, hence the clamp). -/
def Date.from_jd (x : ℚ) : Date := ⟨min (⌊x + 1/2⌋.toNat) 4294967295⟩

/-- `Date::midnight_jd`: `jdn - 0.5 - tz / 24`. -/
def Date.midnight_jd (d : Date) (tz : ℚ) : ℚ := (d.jdn : ℚ) - 1/2 - tz / 24

/-- The 24 solar terms (src/astronomy.rs `SolarTerm`), in solar-year order
starting at the winter solstice. -/
inductive SolarTerm where
  | WinterSolstice | MinorCold | MajorCold | BeginningOfSpring | RainWater
  | AwakeningOfInsects | SpringEquinox | PureBrightness | GrainRain
  | BeginningOfSummer | GrainBuds | GrainInEar | SummerSolstice | MinorHeat
  | MajorHeat | BeginningOfAutumn | EndOfHeat | WhiteDew | AutumnEquinox
  | ColdDew | FrostsDescent | BeginningOfWinter | MinorSnow | MajorSnow
deriving DecidableEq, Fintype

/-- Enum discriminant of `SolarTerm`. -/
def SolarTerm.toRepr : SolarTerm → Nat
  | .WinterSolstice => 0 | .MinorCold => 1 | .MajorCold => 2
  | .BeginningOfSpring => 3 | .RainWater => 4 | .AwakeningOfInsects => 5
  | .SpringEquinox => 6 | .PureBrightness => 7 | .GrainRain => 8
  | .BeginningOfSummer => 9 | .GrainBuds => 10 | .GrainInEar => 11
  | .SummerSolstice => 12 | .MinorHeat => 13 | .MajorHeat => 14
  | .BeginningOfAutumn => 15 | .EndOfHeat => 16 | .WhiteDew => 17
  | .AutumnEquinox => 18 | .ColdDew => 19 | .FrostsDescent => 20
  | .BeginningOfWinter => 21 | .MinorSnow => 22 | .MajorSnow => 23

/-- strum `SolarTerm::from_repr`. -/
def SolarTerm.from_repr : Nat → Option SolarTerm
  | 0 => some .WinterSolstice | 1 => some .MinorCold | 2 => some .MajorCold
  | 3 => some .BeginningOfSpring | 4 => some .RainWater
  | 5 => some .AwakeningOfInsects | 6 => some .SpringEquinox
  | 7 => some .PureBrightness | 8 => some .GrainRain
  | 9 => some .BeginningOfSummer | 10 => some .GrainBuds
  | 11 => some .GrainInEar | 12 => some .SummerSolstice
  | 13 => some .MinorHeat | 14 => some .MajorHeat
  | 15 => some .BeginningOfAutumn | 16 => some .EndOfHeat
  | 17 => some .WhiteDew | 18 => some .AutumnEquinox
  | 19 => some .ColdDew | 20 => some .FrostsDescent
  | 21 => some .BeginningOfWinter | 22 => some .MinorSnow
  | 23 => some .MajorSnow | _ => none

/-- `SolarTerm::is_mid_term`: even discriminant. -/
def SolarTerm.is_mid_term (t : SolarTerm) : Bool := t.toRepr % 2 == 0

/-- `SolarTerm::succ`: `from_repr((self as i8 + 1).rem_euclid(24))`, the
unwrap modelled by the option. -/
def SolarTerm.succ (t : SolarTerm) : Option SolarTerm :=
  SolarTerm.from_repr (((t.toRepr : Int) + 1) % 24).toNat

/-- `SolarTerm::pred`: `from_repr((self as i8 - 1).rem_euclid(24))`. -/
def SolarTerm.pred (t : SolarTerm) : Option SolarTerm :=
  SolarTerm.from_repr (((t.toRepr : Int) - 1) % 24).toNat

/-- The boundary longitude of a term, `(270 + 15 * i) mod 360`, as an
integer number of degrees (cf. `SolarTerm::degrees`). -/
def SolarTerm.boundary_int (t : SolarTerm) : Int :=
  (270 + 15 * (t.toRepr : Int)) % 360

/-- `SolarTerm::from_degree_range`: `begin_ord = -(-a).div_euclid(15.0)`
(i.e. the ceiling of `a / 15`), likewise for `b`; if `begin_ord < end_ord`
the term with discriminant `(begin_ord - 270/15) mod 24` is returned. -/
def SolarTerm.from_degree_range (a b : ℚ) : Option SolarTerm :=
  if -⌊-a / 15⌋ < -⌊-b / 15⌋ then
    SolarTerm.from_repr (((-⌊-a / 15⌋ : Int) - 270 / 15) % 24).toNat
  else
    none

/-- The 8 lunar phases (src/astronomy.rs `LunarPhase`), starting at the
new moon. -/
inductive LunarPhase where
  | NewMoon | WaxingCrescent | FirstQuarter | WaxingGibbous
  | FullMoon | WaningGibbous | LastQuarter | WaningCrescent
deriving DecidableEq, Fintype

/-- Enum discriminant of `LunarPhase`. -/
def LunarPhase.toRepr : LunarPhase → Nat
  | .NewMoon => 0 | .WaxingCrescent => 1 | .FirstQuarter => 2
  | .WaxingGibbous => 3 | .FullMoon => 4 | .WaningGibbous => 5
  | .LastQuarter => 6 | .WaningCrescent => 7

/-- strum `LunarPhase::from_repr`. -/
def LunarPhase.from_repr : Nat → Option LunarPhase
  | 0 => some .NewMoon | 1 => some .WaxingCrescent | 2 => some .FirstQuarter
  | 3 => some .WaxingGibbous | 4 => some .FullMoon | 5 => some .WaningGibbous
  | 6 => some .LastQuarter | 7 => some .WaningCrescent | _ => none

/-- `LunarPhase::succ`: `from_repr((self as i8 + 1).rem_euclid(8))`. -/
def LunarPhase.succ (p : LunarPhase) : Option LunarPhase :=
  LunarPhase.from_repr (((p.toRepr : Int) + 1) % 8).toNat

/-- `LunarPhase::pred`: `from_repr((self as i8 - 1).rem_euclid(8))`. -/
def LunarPhase.pred (p : LunarPhase) : Option LunarPhase :=
  LunarPhase.from_repr (((p.toRepr : Int) - 1) % 8).toNat

/-- `LunarPhase::from_degree_range`: ceilings with respect to 90 degrees;
a cardinal phase `2 * begin_ord mod 8` when a 90-degree multiple is crossed,
otherwise the intermediate phase `2 * begin_ord - 1 mod 8`.  The source
unwraps both `from_repr` calls; the option is kept and proved total. -/
def LunarPhase.from_degree_range (a b : ℚ) : Option LunarPhase :=
  if -⌊-a / 90⌋ < -⌊-b / 90⌋ then
    LunarPhase.from_repr (((-⌊-a / 90⌋ : Int) * 2) % 8).toNat
  else
    LunarPhase.from_repr (((-⌊-a / 90⌋ : Int) * 2 - 1) % 8).toNat

/-- `Date::lunar_phase`, parameterised by the ephemeris function
`get_moon_ecl_long_to_sun` (the Moon-Sun ecliptic longitude difference,
provided externally by the `astro` crate): sample both midnights, unwrap
the 360-degree wrap, and classify the interval. -/
def Date.lunar_phase (moon_to_sun : ℚ → ℚ) (d : Date) (tz : ℚ) : Option LunarPhase :=
  let curr := moon_to_sun (d.midnight_jd tz)
  let next := moon_to_sun (d.succ.midnight_jd tz)
  let curr := if next < curr then curr - 360 else curr
  LunarPhase.from_degree_range curr next

/-- Truncation toward zero of a rational, as f64 `trunc` / `as i32`:
the floor for non-negative values, `-(⌊-x⌋)` (the ceiling) below zero. -/
def rat_trunc (x : ℚ) : Int := if x < 0 then -⌊-x⌋ else ⌊x⌋

/-- src/gregorian.rs `proleptic_gregorian_to_julian_day` (Meeus): month
adjustment, century correction with Euclidean division, and the two floor
terms.  `270/15`-style integer divisions are Euclidean (`div_euclid`). -/
def proleptic_gregorian_to_julian_day (y : Int) (m : Nat) (d : ℚ) : ℚ :=
  let p : Int × Nat := if m > 2 then (y, m) else (y - 1, m + 12)
  let a : Int := Int.ediv p.1 100
  let b : Int := 2 - a + Int.ediv a 4
  (⌊(365.25 * ((p.1 : ℚ) + 4716) : ℚ)⌋ : ℚ) + (⌊(30.6001 * ((p.2 : ℚ) + 1) : ℚ)⌋ : ℚ)
    + d + (b : ℚ) - 1524.5

/-- src/gregorian.rs `julian_day_to_proleptic_gregorian` (Meeus, inverse):
`trunc`/`fract` split, then the cascade of Euclidean divisions and floors.
The final casts `y as i32` and `m as u8` truncate toward zero (the `u8`
cast saturating below 0 and above 255 as a Rust float-to-int cast does). -/
def julian_day_to_proleptic_gregorian (jd : ℚ) : Int × Nat × ℚ :=
  let jd := jd + 1/2
  let z : ℚ := (rat_trunc jd : ℚ)
  let f : ℚ := jd - z
  let alpha : ℚ := (⌊(z - 1867216.25) / 36524.25⌋ : ℚ)
  let a : ℚ := z + 1 + alpha - (⌊alpha / 4⌋ : ℚ)
  let b : ℚ := a + 1524
  let c : ℚ := (⌊(b - 122.1) / 365.25⌋ : ℚ)
  let d : ℚ := (⌊(365.25 * c : ℚ)⌋ : ℚ)
  let e : ℚ := (⌊(b - d) / 30.6001⌋ : ℚ)
  let dom := b - d - (⌊(30.6001 * e : ℚ)⌋ : ℚ) + f
  let ym : ℚ × ℚ := if e < 14 then (c - 4716, e - 1) else (c - 4715, e - 13)
  (rat_trunc ym.1, min (rat_trunc ym.2).toNat 255, dom)

/-- The 12 Gregorian month names (src/gregorian.rs `MonthName`). -/
inductive MonthName where
  | January | February | March | April | May | June
  | July | August | September | October | November | December
deriving DecidableEq, Fintype

/-- Enum discriminant of `MonthName`. -/
def MonthName.toRepr : MonthName → Nat
  | .January => 0 | .February => 1 | .March => 2 | .April => 3
  | .May => 4 | .June => 5 | .July => 6 | .August => 7
  | .September => 8 | .October => 9 | .November => 10 | .December => 11

/-- strum `MonthName::from_repr`. -/
def MonthName.from_repr : Nat → Option MonthName
  | 0 => some .January | 1 => some .February | 2 => some .March
  | 3 => some .April | 4 => some .May | 5 => some .June
  | 6 => some .July | 7 => some .August | 8 => some .September
  | 9 => some .October | 10 => some .November | 11 => some .December
  | _ => none

/-- `MonthName::succ`: `from_repr((self as i8 + 1) as usize)` - no
`rem_euclid`, so `December.succ()` is `None`. -/
def MonthName.succ (m : MonthName) : Option MonthName :=
  MonthName.from_repr (usize_cast ((m.toRepr : Int) + 1))

/-- `MonthName::pred`: `from_repr((self as i8 - 1) as usize)` - no
`rem_euclid`, so `January.pred()` is `None` (the cast of -1 wraps to
2^64 - 1, which is out of range). -/
def MonthName.pred (m : MonthName) : Option MonthName :=
  MonthName.from_repr (usize_cast ((m.toRepr : Int) - 1))

/-- The 10 heavenly stems (src/chinese.rs `Stem`). -/
inductive Stem where
  | Jia | Yi | Bing | Ding | Wu | Ji | Geng | Xin | Ren | Gui
deriving DecidableEq, Fintype

/-- Enum discriminant of `Stem`. -/
def Stem.toRepr : Stem → Nat
  | .Jia => 0 | .Yi => 1 | .Bing => 2 | .Ding => 3 | .Wu => 4
  | .Ji => 5 | .Geng => 6 | .Xin => 7 | .Ren => 8 | .Gui => 9

/-- strum `Stem::from_repr`. -/
def Stem.from_repr : Nat → Option Stem
  | 0 => some .Jia | 1 => some .Yi | 2 => some .Bing | 3 => some .Ding
  | 4 => some .Wu | 5 => some .Ji | 6 => some .Geng | 7 => some .Xin
  | 8 => some .Ren | 9 => some .Gui | _ => none

/-- `Stem::ord`: discriminant plus one. -/
def Stem.ord (s : Stem) : Nat := s.toRepr + 1

/-- The 12 earthly branches (src/chinese.rs `Branch`). -/
inductive Branch where
  | Zi | Chou | Yin | Mao | Chen | Si | Wu | Wei | Shen | You | Xu | Hai
deriving DecidableEq, Fintype

/-- Enum discriminant of `Branch`. -/
def Branch.toRepr : Branch → Nat
  | .Zi => 0 | .Chou => 1 | .Yin => 2 | .Mao => 3 | .Chen => 4 | .Si => 5
  | .Wu => 6 | .Wei => 7 | .Shen => 8 | .You => 9 | .Xu => 10 | .Hai => 11

/-- strum `Branch::from_repr`. -/
def Branch.from_repr : Nat → Option Branch
  | 0 => some .Zi | 1 => some .Chou | 2 => some .Yin | 3 => some .Mao
  | 4 => some .Chen | 5 => some .Si | 6 => some .Wu | 7 => some .Wei
  | 8 => some .Shen | 9 => some .You | 10 => some .Xu | 11 => some .Hai
  | _ => none

/-- `Branch::ord`: discriminant plus one. -/
def Branch.ord (b : Branch) : Nat := b.toRepr + 1

/-- src/chinese.rs `StemBranch`: a stem paired with a branch. -/
structure StemBranch where
  stem : Stem
  branch : Branch
deriving DecidableEq

/-- `StemBranch::new_with_repr`: stem from `repr % 10`, branch from
`repr % 12`.  The source unwraps both `from_repr` calls; the option is
kept and proved total on the inputs the source uses. -/
def StemBranch.new_with_repr (r : Nat) : Option StemBranch := do
  let s ← Stem.from_repr (r % 10)
  let b ← Branch.from_repr (r % 12)
  some ⟨s, b⟩

/-- `StemBranch::ord`: `(stem * 6 - branch * 5).rem_euclid(60) + 1`
computed in `isize` arithmetic. -/
def StemBranch.ord (sb : StemBranch) : Nat :=
  (((sb.stem.toRepr : Int) * 6 - (sb.branch.toRepr : Int) * 5) % 60).toNat + 1

/-- `StemBranch::from_ord`: defined exactly on `1..=60`, via
`new_with_repr(ord - 1)`. -/
def StemBranch.from_ord (ord : Nat) : Option StemBranch :=
  if 1 ≤ ord ∧ ord ≤ 60 then StemBranch.new_with_repr (ord - 1) else none

/-- src/chinese.rs `get_winter_solstice` search loop: starting from a day,
step forward one day at a time until `solar_term` is the winter solstice.
The `while` loop is modelled with fuel; `none` means the loop did not
terminate within the fuel, which never happens on the modelled data. -/
def ws_search (st : Date → Option SolarTerm) : Nat → Date → Option Date
  | 0, _ => none
  | fuel + 1, d =>
    if st d = some SolarTerm.WinterSolstice then some d else ws_search st fuel d.succ

/-- src/chinese.rs `get_winter_solstice`: search upward from the Gregorian
December 21 of the year (`GregorianDay::from_ymd(year, 12, 21)` converted
to a `Date` through `proleptic_gregorian_to_julian_day`). -/
def get_winter_solstice (st : Date → Option SolarTerm) (fuel : Nat) (year : Int) :
    Option Date :=
  ws_search st fuel (Date.from_jd (proleptic_gregorian_to_julian_day year 12 21))

/-- src/chinese.rs `get_prev_new_moon`: step backward day by day until the
lunar phase is the new moon (fuelled `while` loop). -/
def get_prev_new_moon (lp : Date → LunarPhase) : Nat → Date → Option Date
  | 0, _ => none
  | fuel + 1, d =>
    if lp d = LunarPhase.NewMoon then some d else get_prev_new_moon lp fuel d.pred

/-- The daily sweep of `calc_chinese_year_period_data`: walk from the new
moon before the last winter solstice up to (excluding) the day after the
next winter solstice; at each new moon push `(days since previous new moon
as u8, has_mid_term)` and reset the flag; a mid-term day sets the flag of
the month in progress. -/
def month_sweep (lp : Date → LunarPhase) (st : Date → Option SolarTerm) :
    Nat → Date → Date → Option Date → Bool → List (Nat × Bool) →
    Option (List (Nat × Bool))
  | 0, _, _, _, _, _ => none
  | fuel + 1, d, stop, lastNm, hasMt, data =>
    if d = stop then some data
    else
      let l := lp d
      let s := st d
      if l = LunarPhase.NewMoon ∨ s.isSome then
        let step : List (Nat × Bool) × Option Date × Bool :=
          if l = LunarPhase.NewMoon then
            ((match lastNm with
              | some last => data ++ [(u8_cast (Date.sub d last), hasMt)]
              | none => data), some d, false)
          else (data, lastNm, hasMt)
        let hasMt2 : Bool :=
          match s with
          | some t => if t.is_mid_term then true else step.2.2
          | none => step.2.2
        month_sweep lp st fuel d.succ stop step.2.1 hasMt2 step.1
      else
        month_sweep lp st fuel d.succ stop lastNm hasMt data

/-- src/chinese.rs `calc_chinese_year_period_data`, parameterised by the
per-day lunar phase and solar term (in the source these sample the external
ephemeris at `tz = +8`).  Returns the new moon that starts the period, the
month lengths, and the leap-month index (the first month of a 13-month
period that has no mid-term).  `none` models fuel exhaustion or the panic
of the source's unbounded leap search. -/
def calc_chinese_year_period_data (lp : Date → LunarPhase)
    (st : Date → Option SolarTerm) (fuel : Nat) (year : Int) :
    Option (Date × List Nat × Option Nat) := do
  let lastWs ← get_winter_solstice st fuel (year - 1)
  let nextWs ← get_winter_solstice st fuel year
  let nmBeforeLastWs ← get_prev_new_moon lp fuel lastWs
  let pairs ← month_sweep lp st fuel nmBeforeLastWs nextWs.succ none false []
  let leapMonth ←
    (if pairs.length > 12 then
      match pairs.findIdx? (fun e => !e.2) with
      | some i => some (some i)
      | none => none
    else some none)
  some (nmBeforeLastWs, pairs.map Prod.fst, leapMonth)

/-- src/chinese.rs `calc_chinese_year_data`: stitch the periods of `year`
and `year + 1`; a leap index at most 2 belongs to the previous civil year
(offset 3, leap slot `lm + 10`), one of at least 3 to this civil year
(offset 2, leap slot `lm - 2`); pad to 13 entries with a trailing 0; the
first day is the starting new moon advanced by the skipped months
(summed in `u8`, then added to the `Date`); leap slot 13 means none. -/
def calc_chinese_year_data (lp : Date → LunarPhase)
    (st : Date → Option SolarTerm) (fuel : Nat) (year : Int) :
    Option (Date × List Nat × Nat) := do
  let p1 ← calc_chinese_year_period_data lp st fuel year
  let p2 ← calc_chinese_year_period_data lp st fuel (year + 1)
  let fd1 := p1.1
  let data1 := p1.2.1
  let data2 := p2.2.1
  let onl1 : Nat × Option Nat :=
    match p1.2.2 with
    | some l => if l ≤ 2 then (3, none) else (2, some (l - 2))
    | none => (2, none)
  let onl2 : Nat × Option Nat :=
    match p2.2.2 with
    | some l => if l ≤ 2 then (3, some (l + 10)) else (2, none)
    | none => (2, none)
  let data := data1.drop onl1.1 ++ data2.take onl2.1
  let data := if data.length = 12 then data ++ [0] else data
  if data.length = 13 then
    let fd := Date.add fd1 ((((data1.take onl1.1).foldl (fun x y => x + y) 0) % 256 : Nat) : Int)
    some (fd, data, ((onl1.2).or (onl2.2)).getD 13)
  else
    none

/-- Modelled from the spec: the civil days (at the fixed Beijing timezone
`tz = +8`) carrying an astronomical new moon, for the two windows the
oracle years need - December 2013 through January 2016 and November 2022
through January 2025.  The Sun/Moon ephemeris itself is the external
`astro` crate and is not part of this repository's sources; these Julian
day numbers are the published new-moon dates the spec's Step 2/3 events
refer to. -/
def new_moon_jdns : List Nat :=
  [2456630, 2456659, 2456689, 2456718, 2456748, 2456777, 2456807, 2456836,
   2456866, 2456895, 2456925, 2456955, 2456984, 2457014, 2457043, 2457073,
   2457102, 2457132, 2457161, 2457190, 2457220, 2457249, 2457279, 2457309,
   2457339, 2457368, 2457398,
   2459908, 2459937, 2459967, 2459996, 2460026, 2460055, 2460084, 2460114,
   2460144, 2460173, 2460203, 2460233, 2460262, 2460292, 2460321, 2460351,
   2460380, 2460410, 2460439, 2460468, 2460498, 2460527, 2460557, 2460587,
   2460616, 2460646, 2460676]

/-- Modelled from the spec: a day's lunar phase.  The builder only ever
compares the phase against `NewMoon`, so days without a new moon are given
an arbitrary non-new-moon phase. -/
def lunar_phase_model (d : Date) : LunarPhase :=
  if new_moon_jdns.contains d.jdn then LunarPhase.NewMoon else LunarPhase.WaxingCrescent

/-- Modelled from the spec: the civil days (at `tz = +8`) on which a
mid-term (even-indexed solar term) falls, over the same two windows.
Sectional (odd-indexed) terms are omitted: the builder reads a solar term
only through `is_mid_term` and the winter-solstice search, so they cannot
influence any computed value. -/
def mid_term_jdns : List (Nat × SolarTerm) :=
  [(2456649, .WinterSolstice), (2456678, .MajorCold), (2456708, .RainWater),
   (2456738, .SpringEquinox), (2456768, .GrainRain), (2456799, .GrainBuds),
   (2456830, .SummerSolstice), (2456862, .MajorHeat), (2456893, .EndOfHeat),
   (2456924, .AutumnEquinox), (2456954, .FrostsDescent), (2456984, .MinorSnow),
   (2457014, .WinterSolstice), (2457043, .MajorCold), (2457073, .RainWater),
   (2457103, .SpringEquinox), (2457133, .GrainRain), (2457164, .GrainBuds),
   (2457196, .SummerSolstice), (2457227, .MajorHeat), (2457258, .EndOfHeat),
   (2457289, .AutumnEquinox), (2457320, .FrostsDescent), (2457349, .MinorSnow),
   (2457379, .WinterSolstice),
   (2459936, .WinterSolstice), (2459965, .MajorCold), (2459995, .RainWater),
   (2460025, .SpringEquinox), (2460055, .GrainRain), (2460086, .GrainBuds),
   (2460117, .SummerSolstice), (2460149, .MajorHeat), (2460180, .EndOfHeat),
   (2460211, .AutumnEquinox), (2460242, .FrostsDescent), (2460271, .MinorSnow),
   (2460301, .WinterSolstice), (2460330, .MajorCold), (2460360, .RainWater),
   (2460390, .SpringEquinox), (2460420, .GrainRain), (2460451, .GrainBuds),
   (2460483, .SummerSolstice), (2460514, .MajorHeat), (2460545, .EndOfHeat),
   (2460576, .AutumnEquinox), (2460607, .FrostsDescent), (2460637, .MinorSnow),
   (2460666, .WinterSolstice)]

/-- Modelled from the spec: a day's solar term, looked up in the mid-term
table. -/
def solar_term_model (d : Date) : Option SolarTerm :=
  (mid_term_jdns.find? (fun e => e.1 == d.jdn)).map Prod.snd

/-- `calc_chinese_year_data` instantiated with the modelled ephemeris and
enough fuel for every loop involved (each sweep takes at most about 400
steps). -/
def calc_chinese_year_data_model (year : Int) : Option (Date × List Nat × Nat) :=
  calc_chinese_year_data lunar_phase_model solar_term_model 1000 year

/-- src/chinese.rs `Year` (Chinese): the civil year number together with
the builder output. -/
structure ChineseYear where
  year : Int
  first_day : Date
  num_days_of_months : List Nat
  leap_month : Nat
deriving DecidableEq

/-- `Year::eq` as derived with `derivative(PartialEq)`: the `first_day`,
`num_days_of_months` and `leap_month` fields carry
`derivative(PartialEq = "ignore")`, so equality compares the civil year
number only. -/
def ChineseYear.beq (a b : ChineseYear) : Bool := a.year == b.year

/-- `Year::num_months`: 13 when the leap slot is a real index, else 12. -/
def ChineseYear.num_months (y : ChineseYear) : Nat :=
  if y.leap_month < 13 then 13 else 12

/-- src/chinese.rs `Month` (Chinese): a year and a 0-based slot index. -/
structure ChineseMonth where
  year : ChineseYear
  month : Nat
deriving DecidableEq

/-- `Year::month`: defined for ordinals `1..=num_months`, giving the
0-based slot `ord - 1`. -/
def ChineseYear.month (y : ChineseYear) (ord : Nat) : Option ChineseMonth :=
  if 1 ≤ ord ∧ ord ≤ y.num_months then some ⟨y, ord - 1⟩ else none

/-- `Year::from_y` over the modelled builder (the `Option` models the
builder's possible panics and the fuel). -/
def ChineseYear.from_y (year : Int) : Option ChineseYear :=
  (calc_chinese_year_data_model year).map fun t => ⟨year, t.1, t.2.1, t.2.2⟩

/-- The body of `Month::from_ylm` once the year is built: a leap request
for any month other than the leap slot is rejected; `m` below the leap
slot, or equal to it without the leap flag, resolves through
`year.month(m)` (slot `m - 1`); otherwise through `year.month(m + 1)`
(slot `m`). -/
def ChineseMonth.of_year_ylm (y : ChineseYear) (leap : Bool) (m : Nat) :
    Option ChineseMonth :=
  if leap = true ∧ m ≠ y.leap_month then none
  else if m < y.leap_month ∨ (leap = false ∧ m = y.leap_month) then y.month m
  else y.month (m + 1)

/-- `Month::from_ylm`: build the year, then resolve the (leap, month)
request. -/
def ChineseMonth.from_ylm (year : Int) (leap : Bool) (m : Nat) :
    Option ChineseMonth :=
  (ChineseYear.from_y year).bind fun y => ChineseMonth.of_year_ylm y leap m

/-! Evaluation lemmas: the Gregorian December 21 anchor dates used by the
winter-solstice searches.  These discharge the rational-arithmetic part of
the builder once and for all; everything after them is natural-number
computation. -/

theorem from_jd_greg_2013_12_21 :
    Date.from_jd (proleptic_gregorian_to_julian_day 2013 12 21) = ⟨2456648⟩ := by
  have h : proleptic_gregorian_to_julian_day 2013 12 21 = 4913295/2 := by
    unfold proleptic_gregorian_to_julian_day
    norm_num [Int.ediv]
  rw [Date.from_jd, h]
  norm_num
  decide

theorem from_jd_greg_2014_12_21 :
    Date.from_jd (proleptic_gregorian_to_julian_day 2014 12 21) = ⟨2457013⟩ := by
  have h : proleptic_gregorian_to_julian_day 2014 12 21 = 4914025/2 := by
    unfold proleptic_gregorian_to_julian_day
    norm_num [Int.ediv]
  rw [Date.from_jd, h]
  norm_num
  decide

theorem from_jd_greg_2015_12_21 :
    Date.from_jd (proleptic_gregorian_to_julian_day 2015 12 21) = ⟨2457378⟩ := by
  have h : proleptic_gregorian_to_julian_day 2015 12 21 = 4914755/2 := by
    unfold proleptic_gregorian_to_julian_day
    norm_num [Int.ediv]
  rw [Date.from_jd, h]
  norm_num
  decide

theorem from_jd_greg_2022_12_21 :
    Date.from_jd (proleptic_gregorian_to_julian_day 2022 12 21) = ⟨2459935⟩ := by
  have h : proleptic_gregorian_to_julian_day 2022 12 21 = 4919869/2 := by
    unfold proleptic_gregorian_to_julian_day
    norm_num [Int.ediv]
  rw [Date.from_jd, h]
  norm_num
  decide

theorem from_jd_greg_2023_12_21 :
    Date.from_jd (proleptic_gregorian_to_julian_day 2023 12 21) = ⟨2460300⟩ := by
  have h : proleptic_gregorian_to_julian_day 2023 12 21 = 4920599/2 := by
    unfold proleptic_gregorian_to_julian_day
    norm_num [Int.ediv]
  rw [Date.from_jd, h]
  norm_num
  decide

theorem from_jd_greg_2024_12_21 :
    Date.from_jd (proleptic_gregorian_to_julian_day 2024 12 21) = ⟨2460666⟩ := by
  have h : proleptic_gregorian_to_julian_day 2024 12 21 = 4921331/2 := by
    unfold proleptic_gregorian_to_julian_day
    norm_num [Int.ediv]
  rw [Date.from_jd, h]
  norm_num
  decide

/-- Solstice-to-solstice period of 2014 over the modelled ephemeris:
13 months starting at the new moon of JDN 2456630 (2013-12-03); the
twelfth month (index 11) is the first without a mid-term. -/
theorem period_2014_eval :
    calc_chinese_year_period_data lunar_phase_model solar_term_model 1000 2014 =
      some (⟨2456630⟩, [29, 30, 29, 30, 29, 30, 29, 30, 29, 30, 30, 29, 30], some 11) := by
  unfold calc_chinese_year_period_data get_winter_solstice
  rw [show (2014:Int) - 1 = 2013 from by decide]
  rw [from_jd_greg_2013_12_21, from_jd_greg_2014_12_21]
  decide

/-- Solstice-to-solstice period of 2015 over the modelled ephemeris:
12 months starting at the new moon of JDN 2457014 (2014-12-22). -/
theorem period_2015_eval :
    calc_chinese_year_period_data lunar_phase_model solar_term_model 1000 2015 =
      some (⟨2457014⟩, [29, 30, 29, 30, 29, 29, 30, 29, 30, 30, 30, 29], none) := by
  unfold calc_chinese_year_period_data get_winter_solstice
  rw [show (2015:Int) - 1 = 2014 from by decide]
  rw [from_jd_greg_2014_12_21, from_jd_greg_2015_12_21]
  decide

/-- Solstice-to-solstice period of 2023 over the modelled ephemeris:
13 months starting at the new moon of JDN 2459908 (2022-11-24); the
fifth month (index 4) is the first without a mid-term. -/
theorem period_2023_eval :
    calc_chinese_year_period_data lunar_phase_model solar_term_model 1000 2023 =
      some (⟨2459908⟩, [29, 30, 29, 30, 29, 29, 30, 30, 29, 30, 30, 29, 30], some 4) := by
  unfold calc_chinese_year_period_data get_winter_solstice
  rw [show (2023:Int) - 1 = 2022 from by decide]
  rw [from_jd_greg_2022_12_21, from_jd_greg_2023_12_21]
  decide

/-- Solstice-to-solstice period of 2024 over the modelled ephemeris:
12 months starting at the new moon of JDN 2460292 (2023-12-13). -/
theorem period_2024_eval :
    calc_chinese_year_period_data lunar_phase_model solar_term_model 1000 2024 =
      some (⟨2460292⟩, [29, 30, 29, 30, 29, 29, 30, 29, 30, 30, 29, 30], none) := by
  unfold calc_chinese_year_period_data get_winter_solstice
  rw [show (2024:Int) - 1 = 2023 from by decide]
  rw [from_jd_greg_2023_12_21, from_jd_greg_2024_12_21]
  decide

/-- Builder output for civil year 2014. -/
theorem calc_2014_eval :
    calc_chinese_year_data_model 2014 =
      some (⟨2456689⟩, [29, 30, 29, 30, 29, 30, 29, 30, 30, 29, 30, 29, 30], 9) := by
  unfold calc_chinese_year_data_model calc_chinese_year_data
  rw [show (2014:Int) + 1 = 2015 from by decide]
  rw [period_2014_eval, period_2015_eval]
  decide

/-- Builder output for civil year 2023. -/
theorem calc_2023_eval :
    calc_chinese_year_data_model 2023 =
      some (⟨2459967⟩, [29, 30, 29, 29, 30, 30, 29, 30, 30, 29, 30, 29, 30], 2) := by
  unfold calc_chinese_year_data_model calc_chinese_year_data
  rw [show (2023:Int) + 1 = 2024 from by decide]
  rw [period_2023_eval, period_2024_eval]
  decide

/-- C1: the Chinese year builder, applied to civil year 2014, returns first
day JDN 2456689, month lengths [29, 30, 29, 30, 29, 30, 29, 30, 30, 29, 30,
29, 30] and leap month 9 (0-based); applied to 2023 it returns first day
JDN 2459967, month lengths [29, 30, 29, 29, 30, 30, 29, 30, 30, 29, 30, 29,
30] and leap month 2. -/
theorem chinese_year_builder_oracles :
    calc_chinese_year_data_model 2014 =
      some (⟨2456689⟩, [29, 30, 29, 30, 29, 30, 29, 30, 30, 29, 30, 29, 30], 9) ∧
    calc_chinese_year_data_model 2023 =
      some (⟨2459967⟩, [29, 30, 29, 29, 30, 30, 29, 30, 30, 29, 30, 29, 30], 2) :=
  ⟨calc_2014_eval, calc_2023_eval⟩

/-- C4 counterexample: the claim asserts that `pred` is defined and does
not wrap or panic on every `Date`, including the smallest representable
JDN.  In fact `Date::pred` decrements the raw `u32`, so at JDN 0 it wraps
around to `u32::MAX` (and a debug build panics); likewise `succ` wraps at
`u32::MAX`.  Saturation would have kept the value at the bound. -/
theorem date_pred_wraps_at_zero :
    Date.pred (Date.from_jdn 0) = ⟨4294967295⟩ ∧
    Date.pred (Date.from_jdn 0) ≠ Date.from_jdn 0 ∧
    Date.succ ⟨4294967295⟩ = ⟨0⟩ := by
  decide

/-- C4 (amended): `d + k` is total and clamps into `[0, 2^32 - 1]`
(saturating), agreeing with plain addition whenever the exact result is
representable; `succ` and `pred`, however, use unchecked `u32` increment
and decrement, which wrap around at the representation bounds (panicking
in a debug build) instead of saturating. -/
theorem date_add_saturates (d : Date) (k : Int) (hd : d.jdn < 4294967296) :
    (d.add k).jdn ≤ 4294967295 ∧
    ((0 ≤ (d.jdn : Int) + k ∧ (d.jdn : Int) + k ≤ 4294967295) →
      ((d.add k).jdn : Int) = (d.jdn : Int) + k) ∧
    ((d.jdn : Int) + k < 0 → (d.add k).jdn = 0) ∧
    (4294967295 < (d.jdn : Int) + k → (d.add k).jdn = 4294967295) ∧
    (Date.pred ⟨0⟩).jdn = 4294967295 ∧ (Date.succ ⟨4294967295⟩).jdn = 0 := by
  obtain ⟨n⟩ := d
  simp only [Date.add, Date.pred, Date.succ, u32_saturating_add_signed] at hd ⊢
  refine ⟨by omega, fun hr => by omega, fun hr => by omega, fun hr => by omega,
    by decide, by decide⟩

/-- Witness for `date_add_saturates` at `d = Date 10`, `k = -3`. -/
theorem date_add_saturates_witness :
    ((Date.mk 10).add (-3)).jdn ≤ 4294967295 ∧
    (((Date.mk 10).add (-3)).jdn : Int) = ((10 : Nat) : Int) + (-3) :=
  ⟨(date_add_saturates ⟨10⟩ (-3) (by norm_num)).1,
   (date_add_saturates ⟨10⟩ (-3) (by norm_num)).2.1 (by norm_num)⟩

/-- C5 counterexample: at `d = Date 0`, `k = -1` the additions saturate,
so `(d + k) + (-k) = Date 1 ≠ d` and `(d + k) - d = 0 ≠ k`; also shown:
`succ` then `pred` applied at the top of the `u32` range wraps (the claim
promised these identities for every `Date` and `i32`). -/
theorem date_add_sub_cancel_claim_false :
    ((Date.from_jdn 0).add (-1)).add (-(-1)) ≠ Date.from_jdn 0 ∧
    ((Date.from_jdn 0).add (-1)).sub (Date.from_jdn 0) ≠ -1 := by
  decide

/-- C5 (amended): away from the saturation and `i32`-overflow boundaries -
`jdn < 2^31` and `0 ≤ jdn + k < 2^31` - the identities hold:
`(d + k) + (-k) = d` and `(d + k) - d = k`; and `succ`/`pred` are mutual
inverses on every `Date` whose `jdn` is a valid `u32` (under the wrapping
release semantics; at the two extreme JDNs a debug build would panic
inside `succ`/`pred`). -/
theorem date_add_sub_cancel_in_range (d : Date) (k : Int)
    (h1 : d.jdn < 2147483648) (h2 : 0 ≤ (d.jdn : Int) + k)
    (h3 : (d.jdn : Int) + k < 2147483648) :
    ((d.add k).add (-k) = d ∧ (d.add k).sub d = k) ∧
    (∀ e : Date, e.jdn < 4294967296 → e.succ.pred = e ∧ e.pred.succ = e) := by
  obtain ⟨n⟩ := d
  have h1n : n < 2147483648 := h1
  have h2n : 0 ≤ (n : Int) + k := h2
  have h3n : (n : Int) + k < 2147483648 := h3
  have hadd : Date.add ⟨n⟩ k = ⟨((n : Int) + k).toNat⟩ := by
    simp only [Date.add, u32_saturating_add_signed]
    congr 1
    omega
  refine ⟨⟨?_, ?_⟩, fun e he => ?_⟩
  · rw [hadd]
    show Date.mk (u32_saturating_add_signed (((n : Int) + k).toNat) (-k)) = Date.mk n
    rw [Date.mk.injEq, u32_saturating_add_signed]
    omega
  · rw [hadd]
    show i32_wrap (u32_to_i32 (((n : Int) + k).toNat) - u32_to_i32 n) = k
    rw [u32_to_i32, u32_to_i32, i32_wrap, if_pos (by omega), if_pos (by omega),
      Int.toNat_of_nonneg h2n]
    omega
  · obtain ⟨m⟩ := e
    have hm : m < 4294967296 := he
    constructor
    · show Date.mk (((m + 1) % 4294967296 + 4294967295) % 4294967296) = Date.mk m
      rw [Date.mk.injEq]
      omega
    · show Date.mk (((m + 4294967295) % 4294967296 + 1) % 4294967296) = Date.mk m
      rw [Date.mk.injEq]
      omega

/-- Witness for `date_add_sub_cancel_in_range` at `d = Date 100`,
`k = 5`, `e = Date 0`. -/
theorem date_add_sub_cancel_in_range_witness :
    (((Date.mk 100).add 5).add (-5) = Date.mk 100 ∧ ((Date.mk 100).add 5).sub (Date.mk 100) = 5) ∧
    ((Date.mk 0).succ.pred = Date.mk 0 ∧ (Date.mk 0).pred.succ = Date.mk 0) :=
  ⟨(date_add_sub_cancel_in_range ⟨100⟩ 5 (by norm_num) (by norm_num) (by norm_num)).1,
   (date_add_sub_cancel_in_range ⟨100⟩ 5 (by norm_num) (by norm_num) (by norm_num)).2
     ⟨0⟩ (by norm_num)⟩

/-- Every index produced by `emod 8` hits a lunar-phase variant. -/
theorem lunar_phase_from_repr_total :
    ∀ n : Nat, n < 8 → (LunarPhase.from_repr n).isSome := by
  decide

/-- C6: `LunarPhase::from_degree_range` returns a phase for every pair of
degree inputs (both internal `from_repr` unwraps always succeed), and
consequently `Date::lunar_phase` is defined for every civil day, timezone
and ephemeris - it never produces an absent result. -/
theorem lunar_phase_total :
    (∀ a b : ℚ, ∃ p, LunarPhase.from_degree_range a b = some p) ∧
    (∀ (moon_to_sun : ℚ → ℚ) (d : Date) (tz : ℚ),
      ∃ p, Date.lunar_phase moon_to_sun d tz = some p) := by
  have key : ∀ a b : ℚ, ∃ p, LunarPhase.from_degree_range a b = some p := by
    intro a b
    unfold LunarPhase.from_degree_range
    have mod8 : ∀ x : Int, (x % 8).toNat < 8 := by
      intro x
      have h0 : 0 ≤ x % 8 := Int.emod_nonneg x (by norm_num)
      have h8 : x % 8 < 8 := Int.emod_lt_of_pos x (by norm_num)
      omega
    split_ifs
    · exact Option.isSome_iff_exists.mp (lunar_phase_from_repr_total _ (mod8 _))
    · exact Option.isSome_iff_exists.mp (lunar_phase_from_repr_total _ (mod8 _))
  exact ⟨key, fun f d tz => key _ _⟩

/-- `new_with_repr` succeeds on every input below 60. -/
theorem new_with_repr_total :
    ∀ r : Nat, r < 60 → (StemBranch.new_with_repr r).isSome := by
  decide

/-- C8: `StemBranch::from_ord(n)` is `Some` exactly when `1 ≤ n ≤ 60`;
each resulting pair has matching stem/branch parity and maps back to the
same ordinal; the ordinal follows the closed form
`((stem * 6 - branch * 5) mod 60) + 1`; and `(Jia, Zi)` has ordinal 1. -/
theorem stem_branch_ord_bijection :
    (∀ n : Nat, (StemBranch.from_ord n).isSome ↔ 1 ≤ n ∧ n ≤ 60) ∧
    (∀ n : Nat, n < 60 →
      (StemBranch.from_ord (n + 1)).map StemBranch.ord = some (n + 1) ∧
      (StemBranch.from_ord (n + 1)).map
        (fun sb => sb.stem.ord % 2 == sb.branch.ord % 2) = some true) ∧
    (∀ sb : StemBranch,
      sb.ord = (((sb.stem.toRepr : Int) * 6 - (sb.branch.toRepr : Int) * 5) % 60).toNat + 1) ∧
    StemBranch.from_ord 1 = some ⟨Stem.Jia, Branch.Zi⟩ := by
  refine ⟨?_, by decide, fun sb => rfl, by decide⟩
  intro n
  constructor
  · intro h
    by_contra hn
    rw [StemBranch.from_ord, if_neg hn] at h
    simp at h
  · intro hn
    rw [StemBranch.from_ord, if_pos hn]
    exact new_with_repr_total (n - 1) (by omega)

/-- Witness for `stem_branch_ord_bijection` at `n = 60` and `n = 59`. -/
theorem stem_branch_ord_bijection_witness :
    (StemBranch.from_ord 60).isSome ∧
    (StemBranch.from_ord 60).map StemBranch.ord = some 60 :=
  ⟨(stem_branch_ord_bijection.1 60).mpr (by norm_num),
   (stem_branch_ord_bijection.2.1 59 (by norm_num)).1⟩

/-- C9 counterexample: the claim asserts every listed enum has a modular
successor wrapping from the last variant to the first, but
`MonthName::succ` has no `rem_euclid`: at `December` it is `None`, not
`Some(January)`, and `MonthName::pred` at `January` is `None`. -/
theorem month_name_succ_claim_false :
    MonthName.succ MonthName.December = none ∧
    MonthName.succ MonthName.December ≠ some MonthName.January ∧
    MonthName.pred MonthName.January = none := by
  decide

/-- C9 (amended): `SolarTerm`, `LunarPhase` and `Weekday` have modular
successor/predecessor (stepping by one discriminant and wrapping at the
ends, the internal unwrap always succeeding); `MonthName::succ`/`pred`
are partial instead, stepping within the year and returning `None` past
`December`/`January`; `Stem` and `Branch` define no successor or
predecessor at all. -/
theorem enum_succ_pred_cyclic :
    (∀ t : SolarTerm,
      (SolarTerm.succ t).map SolarTerm.toRepr = some ((t.toRepr + 1) % 24) ∧
      (SolarTerm.pred t).map SolarTerm.toRepr = some ((t.toRepr + 23) % 24)) ∧
    (∀ p : LunarPhase,
      (LunarPhase.succ p).map LunarPhase.toRepr = some ((p.toRepr + 1) % 8) ∧
      (LunarPhase.pred p).map LunarPhase.toRepr = some ((p.toRepr + 7) % 8)) ∧
    (∀ w : Weekday,
      (Weekday.succ w).map Weekday.toRepr = some ((w.toRepr + 1) % 7) ∧
      (Weekday.pred w).map Weekday.toRepr = some ((w.toRepr + 6) % 7)) ∧
    (SolarTerm.succ SolarTerm.MajorSnow = some SolarTerm.WinterSolstice ∧
      LunarPhase.succ LunarPhase.WaningCrescent = some LunarPhase.NewMoon ∧
      Weekday.succ Weekday.Sunday = some Weekday.Monday) ∧
    (∀ m : MonthName, m ≠ MonthName.December →
      (MonthName.succ m).map MonthName.toRepr = some (m.toRepr + 1)) ∧
    (∀ m : MonthName, m ≠ MonthName.January →
      (MonthName.pred m).map MonthName.toRepr = some (m.toRepr - 1)) ∧
    MonthName.succ MonthName.December = none ∧
    MonthName.pred MonthName.January = none := by
  refine ⟨by decide, by decide, by decide, by decide, by decide, by decide, by decide, by decide⟩

/-- Witness for `enum_succ_pred_cyclic` at `January`. -/
theorem enum_succ_pred_cyclic_witness :
    (MonthName.succ MonthName.January).map MonthName.toRepr = some 1 :=
  enum_succ_pred_cyclic.2.2.2.2.1 MonthName.January (by decide)

/-- C10: equality of Chinese `Year` values is the equality of the civil
year numbers alone - the derived implementation ignores `first_day`,
`num_days_of_months` and `leap_month`, so two values differing in all
three of those fields still compare equal when the civil years agree
(while plain structural equality distinguishes them). -/
theorem chinese_year_eq_ignores_builder_fields :
    (∀ y1 y2 : ChineseYear, ChineseYear.beq y1 y2 = true ↔ y1.year = y2.year) ∧
    ChineseYear.beq ⟨2023, ⟨1⟩, [29], 2⟩ ⟨2023, ⟨2459967⟩, [30, 30], 13⟩ = true ∧
    (⟨2023, ⟨1⟩, [29], 2⟩ : ChineseYear) ≠ ⟨2023, ⟨2459967⟩, [30, 30], 13⟩ := by
  refine ⟨fun y1 y2 => ?_, by decide, by decide⟩
  simp [ChineseYear.beq]

/-- C3: the Gregorian conversions satisfy the four anchors exactly and
bidirectionally - 2000-01-01.5 at JD 2451545.0; -4713-11-24.5 at JD 0.0;
0001-01-01.0 at JD 1721425.5; 1582-10-15.0 at JD 2299160.5 - and the
date 1582-10-15 falls on a Friday. -/
theorem gregorian_anchor_conversions :
    proleptic_gregorian_to_julian_day 2000 1 (3/2) = 2451545 ∧
    proleptic_gregorian_to_julian_day (-4713) 11 (49/2) = 0 ∧
    proleptic_gregorian_to_julian_day 1 1 1 = 3442851/2 ∧
    proleptic_gregorian_to_julian_day 1582 10 15 = 4598321/2 ∧
    julian_day_to_proleptic_gregorian 2451545 = (2000, 1, 3/2) ∧
    julian_day_to_proleptic_gregorian 0 = (-4713, 11, 49/2) ∧
    julian_day_to_proleptic_gregorian (3442851/2) = (1, 1, 1) ∧
    julian_day_to_proleptic_gregorian (4598321/2) = (1582, 10, 15) ∧
    (Date.from_jd (proleptic_gregorian_to_julian_day 1582 10 15)).weekday =
      some Weekday.Friday := by
  have f1 : proleptic_gregorian_to_julian_day 2000 1 (3/2) = 2451545 := by
    unfold proleptic_gregorian_to_julian_day
    norm_num [Int.ediv]
  have f2 : proleptic_gregorian_to_julian_day (-4713) 11 (49/2) = 0 := by
    unfold proleptic_gregorian_to_julian_day
    norm_num [show Int.ediv (-4713) 100 = -48 from by decide,
      show Int.ediv (-48) 4 = -12 from by decide]
  have f3 : proleptic_gregorian_to_julian_day 1 1 1 = 3442851/2 := by
    unfold proleptic_gregorian_to_julian_day
    norm_num [Int.ediv]
  have f4 : proleptic_gregorian_to_julian_day 1582 10 15 = 4598321/2 := by
    unfold proleptic_gregorian_to_julian_day
    norm_num [Int.ediv]
  have i1 : julian_day_to_proleptic_gregorian 2451545 = (2000, 1, 3/2) := by
    unfold julian_day_to_proleptic_gregorian rat_trunc
    norm_num
    all_goals decide
  have i2 : julian_day_to_proleptic_gregorian 0 = (-4713, 11, 49/2) := by
    unfold julian_day_to_proleptic_gregorian rat_trunc
    norm_num
    all_goals decide
  have i3 : julian_day_to_proleptic_gregorian (3442851/2) = (1, 1, 1) := by
    unfold julian_day_to_proleptic_gregorian rat_trunc
    norm_num
    all_goals decide
  have i4 : julian_day_to_proleptic_gregorian (4598321/2) = (1582, 10, 15) := by
    unfold julian_day_to_proleptic_gregorian rat_trunc
    norm_num
    all_goals decide
  have hd : Date.from_jd (4598321/2) = ⟨2299161⟩ := by
    rw [Date.from_jd]
    norm_num
    all_goals decide
  have w : (Date.from_jd (proleptic_gregorian_to_julian_day 1582 10 15)).weekday =
      some Weekday.Friday := by
    rw [f4, hd]
    decide
  exact ⟨f1, f2, f3, f4, i1, i2, i3, i4, w⟩

/-- The Chinese year value for civil year 2023. -/
theorem chinese_year_2023_eval :
    ChineseYear.from_y 2023 =
      some ⟨2023, ⟨2459967⟩, [29, 30, 29, 29, 30, 30, 29, 30, 30, 29, 30, 29, 30], 2⟩ := by
  rw [ChineseYear.from_y, calc_2023_eval]
  rfl

/-- C7 counterexample: for 2023 (leap slot 2), the claim maps
`from_ylm(2023, false, 2)` to index 2 and `from_ylm(2023, true, 2)` to
index 1; the code (and its own test) maps the non-leap request to slot 1
(`m - 1`, the slot just before the leap slot) and the leap request to
slot 2 (`m`, the leap slot itself). -/
theorem from_ylm_boundary_claim_false :
    (ChineseMonth.from_ylm 2023 false 2).map ChineseMonth.month = some 1 ∧
    (ChineseMonth.from_ylm 2023 false 2).map ChineseMonth.month ≠ some 2 ∧
    (ChineseMonth.from_ylm 2023 true 2).map ChineseMonth.month = some 2 ∧
    (ChineseMonth.from_ylm 2023 true 2).map ChineseMonth.month ≠ some 1 := by
  simp only [ChineseMonth.from_ylm, chinese_year_2023_eval]
  decide

/-- C7 (amended): writing `leap_month` for the year's 0-based leap slot
(13 when there is none) and `num_months` for 12 or 13:
`from_ylm(Y, false, m)` resolves to slot `m - 1` when `m ≤ leap_month`
(for `1 ≤ m ≤ num_months`) and to slot `m` when `m > leap_month` (for
`m + 1 ≤ num_months`); `from_ylm(Y, true, m)` resolves to slot `m` -
not `m - 1` - when `m = leap_month` (for `m + 1 ≤ num_months`); every
other request yields `None`. -/
theorem of_year_ylm_mapping (y : ChineseYear) (m : Nat) :
    (1 ≤ m → m ≤ y.leap_month → m ≤ y.num_months →
      ChineseMonth.of_year_ylm y false m = some ⟨y, m - 1⟩) ∧
    (y.leap_month < m → m + 1 ≤ y.num_months →
      ChineseMonth.of_year_ylm y false m = some ⟨y, m⟩) ∧
    (m = y.leap_month → m + 1 ≤ y.num_months →
      ChineseMonth.of_year_ylm y true m = some ⟨y, m⟩) ∧
    (m ≠ y.leap_month → ChineseMonth.of_year_ylm y true m = none) ∧
    (m ≤ y.leap_month → (m = 0 ∨ y.num_months < m) →
      ChineseMonth.of_year_ylm y false m = none) ∧
    (y.leap_month < m → y.num_months < m + 1 →
      ChineseMonth.of_year_ylm y false m = none) ∧
    (m = y.leap_month → y.num_months < m + 1 →
      ChineseMonth.of_year_ylm y true m = none) := by
  unfold ChineseMonth.of_year_ylm ChineseYear.month
  refine ⟨fun h1 h2 h3 => ?_, fun h1 h2 => ?_, fun h1 h2 => ?_, fun h1 => ?_,
    fun h1 h2 => ?_, fun h1 h2 => ?_, fun h1 h2 => ?_⟩ <;>
    simp only [Bool.false_eq_true, Bool.true_eq_false, false_and, true_and, and_true,
      if_false, if_true] <;>
    split_ifs <;>
    first
      | rfl
      | omega
      | simp_all
      | (exfalso; omega)

/-- Witness for `of_year_ylm_mapping` at the 2023 year value, `m = 1`. -/
theorem of_year_ylm_mapping_witness :
    ChineseMonth.of_year_ylm
        ⟨2023, ⟨2459967⟩, [29, 30, 29, 29, 30, 30, 29, 30, 30, 29, 30, 29, 30], 2⟩ false 1 =
      some ⟨⟨2023, ⟨2459967⟩, [29, 30, 29, 29, 30, 30, 29, 30, 30, 29, 30, 29, 30], 2⟩, 0⟩ :=
  (of_year_ylm_mapping
      ⟨2023, ⟨2459967⟩, [29, 30, 29, 29, 30, 30, 29, 30, 30, 29, 30, 29, 30], 2⟩ 1).1
    (by decide) (by decide) (by decide)

theorem st_from_repr_toRepr : ∀ n : Nat, n < 24 →
    (SolarTerm.from_repr n).map SolarTerm.toRepr = some n := by decide

theorem st_boundary_inj : ∀ t u : SolarTerm, t.boundary_int = u.boundary_int → t = u := by
  decide

theorem st_boundary_range : ∀ t : SolarTerm,
    0 ≤ t.boundary_int ∧ t.boundary_int < 360 ∧ t.boundary_int % 15 = 0 := by decide

theorem st_neg_floor_neg (a : ℚ) : (-⌊-a / 15⌋ : Int) = ⌈a / 15⌉ := by
  rw [neg_div, Int.floor_neg, neg_neg]

theorem st_boundary_of_from_repr (A : Int) (t : SolarTerm)
    (h : SolarTerm.from_repr ((A - 270 / 15) % 24).toNat = some t) :
    t.boundary_int = (15 * A) % 360 := by
  have h18 : ((270 : Int) / 15) = 18 := by decide
  rw [h18] at h
  have hnn : (0 : Int) ≤ (A - 18) % 24 := Int.emod_nonneg _ (by norm_num)
  have hlt : ((A - 18) % 24) < 24 := Int.emod_lt_of_pos _ (by norm_num)
  have h24 : ((A - 18) % 24).toNat < 24 := by omega
  have hmap := st_from_repr_toRepr _ h24
  rw [h] at hmap
  have htr : (t.toRepr : Int) = (A - 18) % 24 := by
    have : t.toRepr = ((A - 18) % 24).toNat := by
      simpa using hmap
    omega
  rw [SolarTerm.boundary_int, htr]
  omega

/-- C2 (amended): for degree values with `0 < b - a ≤ 15`,
`SolarTerm::from_degree_range(a, b)` returns `Some` of the unique term
whose boundary angle `(270 + 15 i) mod 360` has a representative modulo
360 in the half-open interval `[a, b)` - including `a`, excluding `b` -
and `None` when no term boundary falls in that interval. -/
theorem solar_term_from_degree_range_char (a b : ℚ) (t : SolarTerm)
    (hpos : 0 < b - a) (hle : b - a ≤ 15) :
    (SolarTerm.from_degree_range a b = some t ↔
      ∃ k : Int, a ≤ ((t.boundary_int + 360 * k : Int) : ℚ) ∧
        ((t.boundary_int + 360 * k : Int) : ℚ) < b) := by
  rw [SolarTerm.from_degree_range]
  rw [st_neg_floor_neg a, st_neg_floor_neg b]
  have h15 : (0:ℚ) < 15 := by norm_num
  -- characterize the multiples of 15 in [a, b)
  have hAle : a ≤ 15 * (⌈a / 15⌉ : ℚ) := by
    have := Int.le_ceil (a / 15)
    calc a = 15 * (a / 15) := by ring
    _ ≤ 15 * (⌈a / 15⌉ : ℚ) := by nlinarith [Int.le_ceil (a / 15)]
  constructor
  · intro h
    split_ifs at h with hcmp
    · -- the result comes from ⌈a/15⌉
      have hb := st_boundary_of_from_repr ⌈a / 15⌉ t h
      -- 15 * ⌈a/15⌉ is a multiple of 15 in [a, b)
      refine ⟨(15 * ⌈a / 15⌉) / 360, ?_, ?_⟩
      · have heq : (t.boundary_int + 360 * ((15 * ⌈a / 15⌉) / 360)) = 15 * ⌈a / 15⌉ := by
          omega
        rw [heq]
        push_cast
        exact hAle
      · have heq : (t.boundary_int + 360 * ((15 * ⌈a / 15⌉) / 360)) = 15 * ⌈a / 15⌉ := by
          omega
        rw [heq]
        have h1 : ⌈a / 15⌉ ≤ ⌈b / 15⌉ - 1 := by omega
        have h2 : (⌈b / 15⌉ : ℚ) < b / 15 + 1 := Int.ceil_lt_add_one (b / 15)
        have hc : ((⌈a / 15⌉ : Int) : ℚ) ≤ ((⌈b / 15⌉ - 1 : Int) : ℚ) := by exact_mod_cast h1
        push_cast at hc ⊢
        nlinarith
  · rintro ⟨k, hk1, hk2⟩
    -- the multiple 15j := boundary + 360k lies in [a, b)
    have hbd := st_boundary_range t
    have hdvd : (t.boundary_int + 360 * k) % 15 = 0 := by omega
    obtain ⟨j, hj⟩ : ∃ j : Int, t.boundary_int + 360 * k = 15 * j := ⟨(t.boundary_int + 360 * k) / 15, by omega⟩
    rw [hj] at hk1 hk2
    have hjA : ⌈a / 15⌉ ≤ j := by
      rw [Int.ceil_le]
      rw [div_le_iff₀ h15]
      push_cast at hk1 ⊢
      linarith
    have hjB : j < ⌈b / 15⌉ := by
      rw [Int.lt_ceil]
      rw [lt_div_iff₀ h15]
      push_cast at hk2 ⊢
      linarith
    have hcmp : ⌈a / 15⌉ < ⌈b / 15⌉ := lt_of_le_of_lt hjA hjB
    rw [if_pos hcmp]
    -- the returned term has the same boundary as t
    have h24 : (((⌈a / 15⌉ : Int) - 270 / 15) % 24).toNat < 24 := by
      have := Int.emod_nonneg ((⌈a / 15⌉ : Int) - 270 / 15) (show (24:Int) ≠ 0 by norm_num)
      have := Int.emod_lt_of_pos ((⌈a / 15⌉ : Int) - 270 / 15) (show (0:Int) < 24 by norm_num)
      omega
    obtain ⟨u, hu⟩ : ∃ u, SolarTerm.from_repr (((⌈a / 15⌉ : Int) - 270 / 15) % 24).toNat = some u := by
      have := st_from_repr_toRepr _ h24
      cases hfr : SolarTerm.from_repr (((⌈a / 15⌉ : Int) - 270 / 15) % 24).toNat with
      | none => rw [hfr] at this; simp at this
      | some u => exact ⟨u, rfl⟩
    rw [hu]
    -- j must equal ⌈a/15⌉ : both 15j and 15⌈a/15⌉ lie in [a,b) with b - a ≤ 15
    have hAlt : 15 * ((⌈a / 15⌉ : Int) : ℚ) < b := by
      have h1 : ⌈a / 15⌉ ≤ j := hjA
      by_cases hje : j = ⌈a / 15⌉
      · subst hje; push_cast at hk2 ⊢; linarith
      · have h2 : ⌈a / 15⌉ ≤ j - 1 := by omega
        have : ((⌈a / 15⌉ : Int) : ℚ) ≤ ((j - 1 : Int) : ℚ) := by exact_mod_cast h2
        push_cast at this hk2 ⊢
        linarith
    have hjeq : j = ⌈a / 15⌉ := by
      by_contra hne
      have h2 : ⌈a / 15⌉ ≤ j - 1 := by omega
      -- then 15 j ≥ 15 ⌈a/15⌉ + 15 ≥ a + 15 > b, contradiction with 15 j < b
      have hc : ((⌈a / 15⌉ : Int) : ℚ) ≤ ((j - 1 : Int) : ℚ) := by exact_mod_cast h2
      push_cast at hc hk2
      nlinarith
    have hub := st_boundary_of_from_repr ⌈a / 15⌉ u hu
    have htb : t.boundary_int = (15 * ⌈a / 15⌉) % 360 := by
      have : (15 * j) % 360 = (15 * ⌈a / 15⌉) % 360 := by rw [hjeq]
      rw [← this]
      omega
    have := st_boundary_inj t u (by rw [htb, hub])
    rw [this]

/-- C2 counterexample: at `a = 284.5`, `b = 285` (difference 0.5, small
and positive) the boundary of `MinorCold` (285 degrees) lies in `(a, b]`,
so the claim requires `Some(MinorCold)`; the code fires on `[a, b)` and
returns `None`. -/
theorem solar_term_range_boundary_claim_false :
    SolarTerm.from_degree_range (569/2) 285 = none ∧
    (569/2 : ℚ) < ((SolarTerm.MinorCold.boundary_int : Int) : ℚ) ∧
    ((SolarTerm.MinorCold.boundary_int : Int) : ℚ) ≤ 285 ∧
    (0:ℚ) < 285 - 569/2 ∧ (285 - 569/2 : ℚ) ≤ 15 := by
  refine ⟨?_, ?_, ?_, by norm_num, by norm_num⟩
  · rw [SolarTerm.from_degree_range]
    norm_num
  · norm_num [SolarTerm.boundary_int, SolarTerm.toRepr]
  · norm_num [SolarTerm.boundary_int, SolarTerm.toRepr]

/-- Witness for `solar_term_from_degree_range_char` at `a = 0`, `b = 1`,
`t = SpringEquinox` (boundary 0 lies in `[0, 1)`). -/
theorem solar_term_from_degree_range_char_witness :
    SolarTerm.from_degree_range 0 1 = some SolarTerm.SpringEquinox :=
  (solar_term_from_degree_range_char 0 1 SolarTerm.SpringEquinox (by norm_num) (by norm_num)).mpr
    ⟨0, by norm_num [SolarTerm.boundary_int, SolarTerm.toRepr]⟩

end Omnical
